import Mathlib

/-!
# Thinker-Qt: ThinkerBase and ThinkerHolder

A shallow embedding of `include/thinkerqt/thinkerbase.h`, `src/thinker.cpp` and the
`ThinkerHolder` deleter of `include/thinkerqt/thinkerpresent.h`.

Every method runs on a calling thread (`QThread::currentThread()`), passed as `cur`.
A call yields an `Outcome`: the sequence of externally visible events it produced, in
program order, and either the returned value or the reason control left the call early.
-/

namespace ThinkerQt

/-- Identity of a `QThread`. -/
abbrev ThreadId := Nat

/-- Identity of a `ThinkerBase` object (what `*this` denotes). -/
abbrev ThinkerId := Nat

/-- The files in which a `HERE` token can be made. -/
inductive SourceFile
  | thinkerbase_h
  | thinker_cpp
  | client
  deriving DecidableEq, Repr

/-- A source-location token: the value of `HERE` at a given line of a given file. -/
structure codeplace where
  file : SourceFile
  line : Nat
  deriving DecidableEq, Repr

/-- The token `HERE` written at `line` of `file`. -/
def HERE (file : SourceFile) (line : Nat) : codeplace := ⟨file, line⟩

/-- The enum `ThinkerBase::State` (thinkerbase.h, lines 64-68). -/
inductive State
  | ThinkerOwnedByRunner
  | ThinkerFinished
  | ThinkerCanceled
  deriving DecidableEq, Repr

/-- The enumerator values written in the source. -/
def State.toNat : State → Nat
  | .ThinkerOwnedByRunner => 0
  | .ThinkerFinished => 1
  | .ThinkerCanceled => 2

/-- Externally visible effects of the embedded methods, in the order the code performs them. -/
inductive Event
  /-- A call of `SnapshottableBase::lockForWrite(cp)`. -/
  | snapshottableLockForWrite (cp : codeplace)
  /-- A call of `SnapshottableBase::unlock(cp)`. -/
  | snapshottableUnlock (cp : codeplace)
  /-- A call of `ThinkerManager::unlockThinker(thinker)`. -/
  | unlockThinker (thinker : ThinkerId)
  /-- The statement `emit done()` on `thinker`; `seen` is the value of its `_state` at that
  instant. -/
  | done (thinker : ThinkerId) (seen : State)
  /-- The statement `delete thinker` on thread `caller`: the destructor runs there. -/
  | deleteNow (thinker : ThinkerId) (caller : ThreadId)
  /-- The call `thinker->deleteLater()`: a deferred delete is posted to the event loop of
  `owner`. -/
  | deleteLater (thinker : ThinkerId) (owner : ThreadId)
  /-- Anything else a subclass override does. -/
  | other (tag : Nat)
  deriving DecidableEq, Repr

/-- The ways control leaves a call without returning to the caller. -/
inductive Abort
  /-- A failed `hopefully(false, cp)`. -/
  | hopeFailed (cp : codeplace)
  /-- A reached `hopefullyNotReached(msg, cp)`. -/
  | notReached (msg : String) (cp : codeplace)
  /-- The stop signal raised by `pollForStopException`. -/
  | stopException
  /-- The `operator->` applied to a null `QSharedPointer`. -/
  | nullDereference
  deriving DecidableEq, Repr

/-- What a call did: the events it produced and how it ended. -/
structure Outcome (α : Type) where
  trace : List Event
  result : Except Abort α

/-- Returning a value without any effect. -/
def Outcome.pure {α : Type} (a : α) : Outcome α := ⟨[], .ok a⟩

/-- Sequencing: the second computation runs only if the first one returned; events accumulate. -/
def Outcome.bind {α β : Type} (m : Outcome α) (f : α → Outcome β) : Outcome β :=
  match m.result with
  | .error e => ⟨m.trace, .error e⟩
  | .ok a => ⟨m.trace ++ (f a).trace, (f a).result⟩

instance : Monad Outcome where
  pure := Outcome.pure
  bind := Outcome.bind

/-- Perform one visible effect. -/
def perform (e : Event) : Outcome Unit := ⟨[e], .ok ()⟩

/-- Leave the call early. -/
def abort {α : Type} (e : Abort) : Outcome α := ⟨[], .error e⟩

/-- True when the call returned to its caller. -/
def Outcome.returned {α : Type} (m : Outcome α) : Bool :=
  match m.result with
  | .ok _ => true
  | .error _ => false

/-- The number of `done` emissions in a trace. -/
def doneCount : List Event → Nat
  | [] => 0
  | .done _ _ :: es => doneCount es + 1
  | _ :: es => doneCount es

/-- The Manager notifications in a trace: the Thinker of each `unlockThinker` call, in order. -/
def managerNotifications : List Event → List ThinkerId
  | [] => []
  | .unlockThinker t :: es => t :: managerNotifications es
  | _ :: es => managerNotifications es

/-- True when the trace contains a `delete thinker` executed by the calling thread. -/
def destroysInline : List Event → Bool
  | [] => false
  | .deleteNow _ _ :: _ => true
  | _ :: es => destroysInline es

/-- Modelled from the spec: the diagnostic-assertion primitive `hopefully(condition, location)`
of the hoist library (`defs.h` is not among the sources). It is a "fail fast with a
source-location token" check: a false condition is fatal at `cp`, a true one is returned. -/
def hopefully (condition : Bool) (cp : codeplace) : Outcome Bool :=
  if condition then pure true else abort (.hopeFailed cp)

/-- Modelled from the spec: `hopefullyNotReached(message, location)` of the hoist library,
the fatal assertion for code that must not run. -/
def hopefullyNotReached (msg : String) (cp : codeplace) : Outcome Bool :=
  abort (.notReached msg cp)

/-- Modelled from the spec: the Runner (`thinkerrunner.h` is not among the sources), reduced
to what `ThinkerBase` asks of it: the answer its pause flag gives to a query that may wait
up to `time`. -/
structure ThinkerRunner where
  pauseRequested : Nat → Bool

/-- Modelled from the spec: `ThinkerRunner::wasPauseRequested(time)` reads the pause flag,
waiting up to `time` for it to become set. -/
def ThinkerRunner.wasPauseRequested (runner : ThinkerRunner) (time : Nat) : Outcome Bool :=
  pure (runner.pauseRequested time)

/-- Modelled from the spec: `ThinkerRunner::pollForStopException(time)` has the same wait
semantics, but on a true result raises the stop signal instead of returning. -/
def ThinkerRunner.pollForStopException (runner : ThinkerRunner) (time : Nat) : Outcome Unit :=
  if runner.pauseRequested time then abort .stopException else pure ()

/-- A `QSharedPointer<ThinkerRunner>`: null or pointing at a Runner. -/
abbrev RunnerPointer := Option ThinkerRunner

/-- The test `QSharedPointer::isNull`. -/
def RunnerPointer.isNull (p : RunnerPointer) : Bool := p.isNone

/-- The access `QSharedPointer::operator->`. -/
def RunnerPointer.deref (p : RunnerPointer) : Outcome ThinkerRunner :=
  match p with
  | some runner => pure runner
  | none => abort .nullDereference

/-- Modelled from the spec: the Manager (`thinkermanager.h` is not among the sources): the
identity of the coordinating thread and the mapping Thinker identity → Runner. -/
structure ThinkerManager where
  thread : ThreadId
  runners : List (ThinkerId × ThinkerRunner)

/-- The data members of `ThinkerBase` together with what `QObject` keeps for it: the object's
identity and its thread affinity (`QObject::thread()`). The watcher set and its lock are
touched by none of the embedded methods. -/
structure ThinkerBase where
  ident : ThinkerId
  thread : ThreadId
  _state : State
  _mgr : ThinkerManager

/-- The accessor `ThinkerBase::getManager` (thinker.cpp, lines 46-49). -/
def ThinkerBase.getManager (self : ThinkerBase) : ThinkerManager := self._mgr

/-- Modelled from the spec: `ThinkerManager::maybeGetRunnerForThinker(thinker)` returns the
live Runner for a Thinker or an empty result if none. -/
def ThinkerManager.maybeGetRunnerForThinker (mgr : ThinkerManager) (thinker : ThinkerBase) :
    RunnerPointer :=
  mgr.runners.lookup thinker.ident

/-- Modelled from the spec: `ThinkerManager::hopefullyCurrentThreadIsManager(cp)`, the
assertion that the calling thread is the coordinating thread. -/
def ThinkerManager.hopefullyCurrentThreadIsManager (mgr : ThinkerManager) (cur : ThreadId)
    (cp : codeplace) : Outcome Bool :=
  hopefully (mgr.thread == cur) cp

/-- Modelled from the spec: `ThinkerManager::unlockThinker(thinker)`, the notification the
Manager receives when a Thinker releases its write lock. -/
def ThinkerManager.unlockThinker (_mgr : ThinkerManager) (thinker : ThinkerBase) :
    Outcome Unit :=
  perform (.unlockThinker thinker.ident)

/-- The base-class `SnapshottableBase::lockForWrite(cp)` (`snapshottable.h` is not among the
sources): the call is recorded. -/
def SnapshottableBase.lockForWrite (cp : codeplace) : Outcome Unit :=
  perform (.snapshottableLockForWrite cp)

/-- The base-class `SnapshottableBase::unlock(cp)`: the call is recorded. -/
def SnapshottableBase.unlock (cp : codeplace) : Outcome Unit :=
  perform (.snapshottableUnlock cp)

/-- The constructor `ThinkerBase::ThinkerBase(ThinkerManager& mgr)` (thinker.cpp, lines
30-36), run on thread `cur` for the object `ident`. `QObject()` gives the object the
affinity of the constructing thread. -/
def ThinkerBase.construct (cur : ThreadId) (ident : ThinkerId) (mgr : ThinkerManager) :
    Outcome ThinkerBase := do
  let self : ThinkerBase :=
    { ident := ident, thread := cur, _state := .ThinkerOwnedByRunner, _mgr := mgr }
  let _ ← self.getManager.hopefullyCurrentThreadIsManager cur (HERE .thinker_cpp 35)
  pure self

/-- The constructor `ThinkerBase::ThinkerBase()` (thinker.cpp, lines 38-44);
`globalInstance` is what `*ThinkerManager::globalInstance()` denotes. -/
def ThinkerBase.constructDefault (globalInstance : ThinkerManager) (cur : ThreadId)
    (ident : ThinkerId) : Outcome ThinkerBase := do
  let self : ThinkerBase :=
    { ident := ident, thread := cur, _state := .ThinkerOwnedByRunner, _mgr := globalInstance }
  let _ ← self.getManager.hopefullyCurrentThreadIsManager cur (HERE .thinker_cpp 43)
  pure self

/-- The check `ThinkerBase::hopefullyCurrentThreadIsThink` (thinkerbase.h, lines 99-106). -/
def ThinkerBase.hopefullyCurrentThreadIsThink (self : ThinkerBase) (cur : ThreadId)
    (cp : codeplace) : Outcome Bool :=
  hopefully (self.thread == cur) cp

/-- The override `ThinkerBase::lockForWrite` (thinker.cpp, lines 59-64). -/
def ThinkerBase.lockForWrite (self : ThinkerBase) (cur : ThreadId) (cp : codeplace) :
    Outcome Unit := do
  let _ ← self.hopefullyCurrentThreadIsThink cur (HERE .thinker_cpp 61)
  SnapshottableBase.lockForWrite cp

/-- The override `ThinkerBase::unlock` (thinker.cpp, lines 66-73). -/
def ThinkerBase.unlock (self : ThinkerBase) (cur : ThreadId) (cp : codeplace) :
    Outcome Unit := do
  let _ ← self.hopefullyCurrentThreadIsThink cur (HERE .thinker_cpp 68)
  self.getManager.unlockThinker self
  SnapshottableBase.unlock cp

/-- The method `ThinkerBase::wasPauseRequested` (thinker.cpp, lines 76-83); `time` is 0 when omitted
(thinkerbase.h, line 83). -/
def ThinkerBase.wasPauseRequested (self : ThinkerBase) (cur : ThreadId) (time : Nat := 0) :
    Outcome Bool := do
  let _ ← self.hopefullyCurrentThreadIsThink cur (HERE .thinker_cpp 78)
  let runner : RunnerPointer := self.getManager.maybeGetRunnerForThinker self
  let _ ← hopefully (not (RunnerPointer.isNull runner)) (HERE .thinker_cpp 81)
  let r ← RunnerPointer.deref runner
  r.wasPauseRequested time

/-- The method `ThinkerBase::pollForStopException` (thinker.cpp, lines 86-93); `time` is 0 when
omitted (thinkerbase.h, line 91). -/
def ThinkerBase.pollForStopException (self : ThinkerBase) (cur : ThreadId) (time : Nat := 0) :
    Outcome Unit := do
  let _ ← self.hopefullyCurrentThreadIsThink cur (HERE .thinker_cpp 88)
  let runner : RunnerPointer := self.getManager.maybeGetRunnerForThinker self
  let _ ← hopefully (not (RunnerPointer.isNull runner)) (HERE .thinker_cpp 91)
  let r ← RunnerPointer.deref runner
  r.pollForStopException time

/-- The destructor `ThinkerBase::~ThinkerBase` (thinker.cpp, lines 105-109), run on thread
`cur`. -/
def ThinkerBase.destructor (self : ThinkerBase) (cur : ThreadId) : Outcome Unit := do
  let _ ← self.getManager.hopefullyCurrentThreadIsManager cur (HERE .thinker_cpp 107)
  let _ ← hopefully (RunnerPointer.isNull (self.getManager.maybeGetRunnerForThinker self))
    (HERE .thinker_cpp 108)
  pure ()

/-- A virtual method of a Thinker with a boolean result: it runs on a thread, reads the base
object, may change the data members `σ` of the subclass and may do anything an `Outcome`
records. The data members of `ThinkerBase` are private, so an override cannot assign them. -/
abbrev Method (σ : Type) := ThreadId → ThinkerBase → σ → Outcome (Bool × σ)

/-- A virtual hook of a Thinker without a result. -/
abbrev Hook (σ : Type) := ThreadId → ThinkerBase → σ → Outcome σ

/-- The virtual methods a concrete Thinker class supplies: `start` is pure virtual; `resume`,
`afterThreadAttach` and `beforeThreadDetach` are overridden or inherited (`none`). -/
structure ThinkerType (σ : Type) where
  start : Method σ
  resume : Option (Method σ)
  afterThreadAttach : Option (Hook σ)
  beforeThreadDetach : Option (Hook σ)

/-- The inherited `ThinkerBase::resume` (thinkerbase.h, lines 157-166). -/
def ThinkerBase.resume {σ : Type} : Method σ := fun _cur _self sub => do
  let _ ← hopefullyNotReached "Thinker not designed to be resumable." (HERE .thinkerbase_h 164)
  return (false, sub)

/-- The inherited `ThinkerBase::afterThreadAttach` (thinker.cpp, lines 51-53). -/
def ThinkerBase.afterThreadAttach {σ : Type} : Hook σ := fun _cur _self sub => pure sub

/-- The inherited `ThinkerBase::beforeThreadDetach` (thinker.cpp, lines 55-57). -/
def ThinkerBase.beforeThreadDetach {σ : Type} : Hook σ := fun _cur _self sub => pure sub

/-- Virtual dispatch of `resume()`. -/
def ThinkerType.callResume {σ : Type} (v : ThinkerType σ) : Method σ :=
  match v.resume with
  | some f => f
  | none => ThinkerBase.resume

/-- Virtual dispatch of `afterThreadAttach()`. -/
def ThinkerType.callAfterThreadAttach {σ : Type} (v : ThinkerType σ) : Hook σ :=
  match v.afterThreadAttach with
  | some f => f
  | none => ThinkerBase.afterThreadAttach

/-- Virtual dispatch of `beforeThreadDetach()`. -/
def ThinkerType.callBeforeThreadDetach {σ : Type} (v : ThinkerType σ) : Hook σ :=
  match v.beforeThreadDetach with
  | some f => f
  | none => ThinkerBase.beforeThreadDetach

/-- The statement `emit done();` executed on `self`. -/
def ThinkerBase.done (self : ThinkerBase) : Outcome Unit :=
  perform (.done self.ident self._state)

/-- The wrapper `ThinkerBase::startMaybeEmitDone` (thinkerbase.h, lines 139-145). -/
def ThinkerBase.startMaybeEmitDone {σ : Type} (v : ThinkerType σ) : Method σ :=
  fun cur self sub => do
    let (finished, sub) ← v.start cur self sub
    if finished then
      self.done
      return (true, sub)
    return (false, sub)

/-- The wrapper `ThinkerBase::resumeMaybeEmitDone` (thinkerbase.h, lines 147-153). -/
def ThinkerBase.resumeMaybeEmitDone {σ : Type} (v : ThinkerType σ) : Method σ :=
  fun cur self sub => do
    let (finished, sub) ← v.callResume cur self sub
    if finished then
      self.done
      return (true, sub)
    return (false, sub)

/-- The deleter `ThinkerHolder::doDeleteLater` (thinkerpresent.h, lines 81-87) installed by
the `ThinkerHolder` constructor, run on thread `cur`. The statement `delete thinker` is
recorded and then runs the destructor of `ThinkerBase`; what the destructor of a subclass
does before it is not modelled. -/
def ThinkerHolder.doDeleteLater (thinker : ThinkerBase) (cur : ThreadId) : Outcome Unit :=
  if thinker.thread == cur then do
    perform (.deleteNow thinker.ident cur)
    thinker.destructor cur
  else
    perform (.deleteLater thinker.ident thinker.thread)

/-- True when a `start()`/`resume()` call returned the value `true`. -/
def returnedTrue {σ : Type} (m : Outcome (Bool × σ)) : Bool :=
  match m.result with
  | .ok (true, _) => true
  | _ => false

/-! ## Basic facts about `Outcome` -/

theorem Outcome.bind_eq {α β : Type} (m : Outcome α) (f : α → Outcome β) :
    (m >>= f) = Outcome.bind m f := rfl

theorem Outcome.pure_eq {α : Type} (a : α) : (Pure.pure a : Outcome α) = Outcome.pure a := rfl

theorem hopefully_true (cp : codeplace) : hopefully true cp = ⟨[], .ok true⟩ := rfl

theorem hopefully_false (cp : codeplace) : hopefully false cp = ⟨[], .error (.hopeFailed cp)⟩ :=
  rfl

theorem hopefullyCurrentThreadIsThink_eq (self : ThinkerBase) (cur : ThreadId) (cp : codeplace) :
    self.hopefullyCurrentThreadIsThink cur cp =
      if self.thread = cur then ⟨[], .ok true⟩ else ⟨[], .error (.hopeFailed cp)⟩ := by
  unfold ThinkerBase.hopefullyCurrentThreadIsThink
  by_cases h : self.thread = cur
  · simp [h, hopefully_true]
  · have hb : (self.thread == cur) = false := by simpa using h
    simp [h, hb, hopefully_false]

theorem lockForWrite_eq (self : ThinkerBase) (cur : ThreadId) (cp : codeplace) :
    self.lockForWrite cur cp =
      if self.thread = cur then ⟨[.snapshottableLockForWrite cp], .ok ()⟩
      else ⟨[], .error (.hopeFailed (HERE .thinker_cpp 61))⟩ := by
  unfold ThinkerBase.lockForWrite
  rw [hopefullyCurrentThreadIsThink_eq]
  by_cases h : self.thread = cur <;> simp [h, Outcome.bind_eq, Outcome.bind,
    SnapshottableBase.lockForWrite, perform]

theorem unlock_eq (self : ThinkerBase) (cur : ThreadId) (cp : codeplace) :
    self.unlock cur cp =
      if self.thread = cur then
        ⟨[.unlockThinker self.ident, .snapshottableUnlock cp], .ok ()⟩
      else ⟨[], .error (.hopeFailed (HERE .thinker_cpp 68))⟩ := by
  unfold ThinkerBase.unlock
  rw [hopefullyCurrentThreadIsThink_eq]
  by_cases h : self.thread = cur <;> simp [h, Outcome.bind_eq, Outcome.bind,
    SnapshottableBase.unlock, ThinkerManager.unlockThinker, perform]

theorem wasPauseRequested_eq (self : ThinkerBase) (cur : ThreadId) (time : Nat) :
    self.wasPauseRequested cur time =
      if self.thread = cur then
        match self.getManager.maybeGetRunnerForThinker self with
        | some r => r.wasPauseRequested time
        | none => ⟨[], .error (.hopeFailed (HERE .thinker_cpp 81))⟩
      else ⟨[], .error (.hopeFailed (HERE .thinker_cpp 78))⟩ := by
  unfold ThinkerBase.wasPauseRequested
  rw [hopefullyCurrentThreadIsThink_eq]
  by_cases h : self.thread = cur
  · cases hr : self.getManager.maybeGetRunnerForThinker self <;>
      simp [h, hr, Outcome.bind_eq, Outcome.bind, RunnerPointer.isNull, RunnerPointer.deref,
        hopefully_true, hopefully_false, Outcome.pure_eq, Outcome.pure]
  · simp [h, Outcome.bind_eq, Outcome.bind]

theorem pollForStopException_eq (self : ThinkerBase) (cur : ThreadId) (time : Nat) :
    self.pollForStopException cur time =
      if self.thread = cur then
        match self.getManager.maybeGetRunnerForThinker self with
        | some r => r.pollForStopException time
        | none => ⟨[], .error (.hopeFailed (HERE .thinker_cpp 91))⟩
      else ⟨[], .error (.hopeFailed (HERE .thinker_cpp 88))⟩ := by
  unfold ThinkerBase.pollForStopException
  rw [hopefullyCurrentThreadIsThink_eq]
  by_cases h : self.thread = cur
  · cases hr : self.getManager.maybeGetRunnerForThinker self <;>
      simp [h, hr, Outcome.bind_eq, Outcome.bind, RunnerPointer.isNull, RunnerPointer.deref,
        hopefully_true, hopefully_false, Outcome.pure_eq, Outcome.pure]
  · simp [h, Outcome.bind_eq, Outcome.bind]

theorem hopefullyCurrentThreadIsManager_eq (mgr : ThinkerManager) (cur : ThreadId)
    (cp : codeplace) :
    mgr.hopefullyCurrentThreadIsManager cur cp =
      if mgr.thread = cur then ⟨[], .ok true⟩ else ⟨[], .error (.hopeFailed cp)⟩ := by
  unfold ThinkerManager.hopefullyCurrentThreadIsManager
  by_cases h : mgr.thread = cur
  · simp [h, hopefully_true]
  · have hb : (mgr.thread == cur) = false := by simpa using h
    simp [h, hb, hopefully_false]

theorem construct_eq (cur : ThreadId) (ident : ThinkerId) (mgr : ThinkerManager) :
    ThinkerBase.construct cur ident mgr =
      if mgr.thread = cur then ⟨[], .ok ⟨ident, cur, .ThinkerOwnedByRunner, mgr⟩⟩
      else ⟨[], .error (.hopeFailed (HERE .thinker_cpp 35))⟩ := by
  unfold ThinkerBase.construct
  simp only [ThinkerBase.getManager]
  rw [hopefullyCurrentThreadIsManager_eq]
  by_cases h : mgr.thread = cur <;>
    simp [h, Outcome.bind_eq, Outcome.bind, Outcome.pure_eq, Outcome.pure]

theorem constructDefault_eq (globalInstance : ThinkerManager) (cur : ThreadId)
    (ident : ThinkerId) :
    ThinkerBase.constructDefault globalInstance cur ident =
      if globalInstance.thread = cur then
        ⟨[], .ok ⟨ident, cur, .ThinkerOwnedByRunner, globalInstance⟩⟩
      else ⟨[], .error (.hopeFailed (HERE .thinker_cpp 43))⟩ := by
  unfold ThinkerBase.constructDefault
  simp only [ThinkerBase.getManager]
  rw [hopefullyCurrentThreadIsManager_eq]
  by_cases h : globalInstance.thread = cur <;>
    simp [h, Outcome.bind_eq, Outcome.bind, Outcome.pure_eq, Outcome.pure]

theorem destructor_eq (self : ThinkerBase) (cur : ThreadId) :
    self.destructor cur =
      if self.getManager.thread = cur then
        match self.getManager.maybeGetRunnerForThinker self with
        | none => ⟨[], .ok ()⟩
        | some _ => ⟨[], .error (.hopeFailed (HERE .thinker_cpp 108))⟩
      else ⟨[], .error (.hopeFailed (HERE .thinker_cpp 107))⟩ := by
  unfold ThinkerBase.destructor
  rw [hopefullyCurrentThreadIsManager_eq]
  by_cases h : self.getManager.thread = cur
  · cases hr : self.getManager.maybeGetRunnerForThinker self <;>
      simp [h, Outcome.bind_eq, Outcome.bind, RunnerPointer.isNull,
        hopefully_true, hopefully_false, Outcome.pure_eq, Outcome.pure]
  · simp [h, Outcome.bind_eq, Outcome.bind]

theorem doDeleteLater_own (thinker : ThinkerBase) :
    ThinkerHolder.doDeleteLater thinker thinker.thread =
      ⟨.deleteNow thinker.ident thinker.thread :: (thinker.destructor thinker.thread).trace,
        (thinker.destructor thinker.thread).result⟩ := by
  simp [ThinkerHolder.doDeleteLater, Outcome.bind_eq, Outcome.bind, perform]

theorem doDeleteLater_foreign (thinker : ThinkerBase) (cur : ThreadId)
    (h : thinker.thread ≠ cur) :
    ThinkerHolder.doDeleteLater thinker cur =
      ⟨[.deleteLater thinker.ident thinker.thread], .ok ()⟩ := by
  have hb : (thinker.thread == cur) = false := by simpa using h
  simp [ThinkerHolder.doDeleteLater, hb, perform]

/-! ## Thread affinity of the locking overrides -/

/-- C3: `ThinkerBase::lockForWrite` and `ThinkerBase::unlock` pass the thread-affinity
assertion exactly when the calling thread is the thread the Thinker is affined to: the
check `hopefullyCurrentThreadIsThink` returns true if and only if the two threads are
equal, on the Thinker's thread `lockForWrite` and `unlock` go on to the Snapshot Store,
and on any other thread they stop at their assertion (thinker.cpp lines 61 and 68) before
doing anything. A Thinker constructed on the coordinating thread is affined to it. -/
theorem lock_methods_pass_affinity_assertion_iff_own_thread (self : ThinkerBase)
    (cur : ThreadId) (cp : codeplace) (ident : ThinkerId) (mgr : ThinkerManager) :
    ((self.hopefullyCurrentThreadIsThink cur cp).result = .ok true ↔ self.thread = cur) ∧
    ((self.lockForWrite cur cp).returned = true ↔ self.thread = cur) ∧
    ((self.unlock cur cp).returned = true ↔ self.thread = cur) ∧
    self.lockForWrite cur cp =
      (if self.thread = cur then ⟨[.snapshottableLockForWrite cp], .ok ()⟩
       else ⟨[], .error (.hopeFailed (HERE .thinker_cpp 61))⟩) ∧
    self.unlock cur cp =
      (if self.thread = cur then ⟨[.unlockThinker self.ident, .snapshottableUnlock cp], .ok ()⟩
       else ⟨[], .error (.hopeFailed (HERE .thinker_cpp 68))⟩) ∧
    ThinkerBase.construct mgr.thread ident mgr =
      ⟨[], .ok ⟨ident, mgr.thread, .ThinkerOwnedByRunner, mgr⟩⟩ := by
  refine ⟨?_, ?_, ?_, lockForWrite_eq self cur cp, unlock_eq self cur cp, ?_⟩
  · rw [hopefullyCurrentThreadIsThink_eq]
    by_cases h : self.thread = cur <;> simp [h]
  · rw [lockForWrite_eq]
    by_cases h : self.thread = cur <;> simp [h, Outcome.returned]
  · rw [unlock_eq]
    by_cases h : self.thread = cur <;> simp [h, Outcome.returned]
  · rw [construct_eq]; simp

/-! ## Manager notification on unlock -/

/-- C4: on the Thinker's own thread `ThinkerBase::unlock` calls
`ThinkerManager::unlockThinker` for this Thinker exactly once, and that call precedes
`SnapshottableBase::unlock`; `ThinkerBase::lockForWrite`, from whatever thread, produces
no Manager notification. -/
theorem unlock_notifies_manager_once_before_release (self : ThinkerBase) (cur : ThreadId)
    (cp : codeplace) :
    self.unlock self.thread cp =
      ⟨[.unlockThinker self.ident, .snapshottableUnlock cp], .ok ()⟩ ∧
    managerNotifications (self.unlock self.thread cp).trace = [self.ident] ∧
    managerNotifications (self.lockForWrite cur cp).trace = [] := by
  refine ⟨?_, ?_, ?_⟩
  · rw [unlock_eq]; simp
  · rw [unlock_eq]; simp [managerNotifications]
  · rw [lockForWrite_eq]
    by_cases h : self.thread = cur <;> simp [h, managerNotifications]

/-! ## Pause queries -/

/-- C5 fails at this input: a Thinker on thread 1 whose Manager has no Runner for it calls
`wasPauseRequested(0)` and `pollForStopException(0)` on thread 1; neither call returns,
both stop at the assertion that the Runner pointer is not null. -/
theorem pause_queries_without_runner_counterexample :
    (ThinkerBase.wasPauseRequested ⟨7, 1, .ThinkerOwnedByRunner, ⟨1, []⟩⟩ 1 0).returned = false ∧
    (ThinkerBase.wasPauseRequested ⟨7, 1, .ThinkerOwnedByRunner, ⟨1, []⟩⟩ 1 0).result =
      .error (.hopeFailed (HERE .thinker_cpp 81)) ∧
    (ThinkerBase.pollForStopException ⟨7, 1, .ThinkerOwnedByRunner, ⟨1, []⟩⟩ 1 0).returned
      = false ∧
    (ThinkerBase.pollForStopException ⟨7, 1, .ThinkerOwnedByRunner, ⟨1, []⟩⟩ 1 0).result =
      .error (.hopeFailed (HERE .thinker_cpp 91)) := by
  refine ⟨rfl, rfl, rfl, rfl⟩

/-- C5 (amended): when `maybeGetRunnerForThinker` returns the empty result,
`wasPauseRequested` and `pollForStopException`, invoked on the Thinker's own thread, fail
the assertion `hopefully(not runner.isNull(), HERE)` (thinker.cpp lines 81 and 91) and
nothing else happens. -/
theorem pause_queries_without_runner_fail_assertion (self : ThinkerBase) (time : Nat)
    (h : self.getManager.maybeGetRunnerForThinker self = none) :
    self.wasPauseRequested self.thread time =
      ⟨[], .error (.hopeFailed (HERE .thinker_cpp 81))⟩ ∧
    self.pollForStopException self.thread time =
      ⟨[], .error (.hopeFailed (HERE .thinker_cpp 91))⟩ := by
  rw [wasPauseRequested_eq, pollForStopException_eq, h]
  simp

theorem pause_queries_without_runner_fail_assertion_witness :
    ThinkerBase.wasPauseRequested ⟨7, 1, .ThinkerOwnedByRunner, ⟨1, []⟩⟩ 1 5 =
      ⟨[], .error (.hopeFailed (HERE .thinker_cpp 81))⟩ ∧
    ThinkerBase.pollForStopException ⟨7, 1, .ThinkerOwnedByRunner, ⟨1, []⟩⟩ 1 5 =
      ⟨[], .error (.hopeFailed (HERE .thinker_cpp 91))⟩ :=
  pause_queries_without_runner_fail_assertion ⟨7, 1, .ThinkerOwnedByRunner, ⟨1, []⟩⟩ 5 rfl

/-- C6: with a live Runner `r` registered for the Thinker, `wasPauseRequested(t)` called on
the Thinker's own thread is exactly `r`s `wasPauseRequested(t)`, with `t = 0` when the
argument is omitted; called from any other thread it fails the thread-affinity assertion
(thinker.cpp line 78). -/
theorem wasPauseRequested_forwards_to_runner (self : ThinkerBase) (r : ThinkerRunner)
    (cur : ThreadId) (t : Nat)
    (h : self.getManager.maybeGetRunnerForThinker self = some r) :
    self.wasPauseRequested self.thread t = r.wasPauseRequested t ∧
    (self.wasPauseRequested self.thread t).result = .ok (r.pauseRequested t) ∧
    self.wasPauseRequested self.thread = r.wasPauseRequested 0 ∧
    self.wasPauseRequested cur t =
      (if self.thread = cur then r.wasPauseRequested t
       else ⟨[], .error (.hopeFailed (HERE .thinker_cpp 78))⟩) := by
  refine ⟨?_, ?_, ?_, ?_⟩
  · rw [wasPauseRequested_eq, h]; simp
  · rw [wasPauseRequested_eq, h]; simp [ThinkerRunner.wasPauseRequested, Outcome.pure_eq,
      Outcome.pure]
  · rw [wasPauseRequested_eq, h]; simp
  · rw [wasPauseRequested_eq, h]

theorem wasPauseRequested_forwards_to_runner_witness :
    (ThinkerBase.wasPauseRequested
        ⟨7, 2, .ThinkerOwnedByRunner, ⟨1, [(7, ⟨fun t => decide (t = 3)⟩)]⟩⟩ 2 3).result
      = .ok true ∧
    (ThinkerBase.wasPauseRequested
        ⟨7, 2, .ThinkerOwnedByRunner, ⟨1, [(7, ⟨fun t => decide (t = 3)⟩)]⟩⟩ 1 3).result
      = .error (.hopeFailed (HERE .thinker_cpp 78)) := by
  have h := wasPauseRequested_forwards_to_runner
    ⟨7, 2, .ThinkerOwnedByRunner, ⟨1, [(7, ⟨fun t => decide (t = 3)⟩)]⟩⟩
    ⟨fun t => decide (t = 3)⟩ 1 3 rfl
  refine ⟨?_, ?_⟩
  · rw [h.2.1]; rfl
  · rw [h.2.2.2]; rfl

/-! ## The ThinkerHolder deleter -/

/-- C7: the deleter `doDeleteLater` runs `delete thinker` on the calling thread if and only
if the calling thread is the thread the Thinker is affined to; on every other thread it
deletes nothing and does exactly one thing: `deleteLater()`, a deferred delete posted to
the Thinker's own thread. -/
theorem doDeleteLater_inline_iff_own_thread (thinker : ThinkerBase) (cur : ThreadId) :
    (destroysInline (ThinkerHolder.doDeleteLater thinker cur).trace = true ↔
      thinker.thread = cur) ∧
    (ThinkerHolder.doDeleteLater thinker cur =
        ⟨[.deleteLater thinker.ident thinker.thread], .ok ()⟩ ↔ thinker.thread ≠ cur) ∧
    (Event.deleteNow thinker.ident cur ∈ (ThinkerHolder.doDeleteLater thinker cur).trace ↔
      thinker.thread = cur) ∧
    (Event.deleteLater thinker.ident thinker.thread ∈
        (ThinkerHolder.doDeleteLater thinker cur).trace ↔ thinker.thread ≠ cur) := by
  by_cases h : thinker.thread = cur
  · subst h
    rw [doDeleteLater_own, destructor_eq]
    by_cases hm : thinker.getManager.thread = thinker.thread
    · cases hr : thinker.getManager.maybeGetRunnerForThinker thinker <;>
        simp [hm, destroysInline]
    · simp [hm, destroysInline]
  · rw [doDeleteLater_foreign thinker cur h]
    simp [h, destroysInline]

theorem doneCount_append (xs ys : List Event) :
    doneCount (xs ++ ys) = doneCount xs + doneCount ys := by
  induction xs with
  | nil => simp [doneCount]
  | cons x xs ih =>
    cases x <;> simp [doneCount, ih]
    omega

/-- What a wrapper does around a method `m` of which it forwards the result. -/
theorem maybeEmitDone_eq {σ : Type} (self : ThinkerBase) (m : Outcome (Bool × σ)) :
    (m >>= fun r =>
        if r.1 = true then
          (self.done >>= fun _ => (Pure.pure (true, r.2) : Outcome (Bool × σ)))
        else Pure.pure (false, r.2)) =
      ⟨m.trace ++ (if returnedTrue m = true then [.done self.ident self._state] else []),
        m.result⟩ := by
  obtain ⟨tr, res⟩ := m
  cases res with
  | error e => simp [Outcome.bind_eq, Outcome.bind, returnedTrue]
  | ok r =>
    obtain ⟨b, s⟩ := r
    cases b <;>
      simp [Outcome.bind_eq, Outcome.bind, returnedTrue, Outcome.pure_eq, Outcome.pure,
        ThinkerBase.done, perform]

theorem startMaybeEmitDone_eq {σ : Type} (v : ThinkerType σ) (cur : ThreadId)
    (self : ThinkerBase) (sub : σ) :
    ThinkerBase.startMaybeEmitDone v cur self sub =
      ⟨(v.start cur self sub).trace ++
          (if returnedTrue (v.start cur self sub) = true then [.done self.ident self._state]
           else []),
        (v.start cur self sub).result⟩ := by
  rw [← maybeEmitDone_eq]
  rfl

theorem resumeMaybeEmitDone_eq {σ : Type} (v : ThinkerType σ) (cur : ThreadId)
    (self : ThinkerBase) (sub : σ) :
    ThinkerBase.resumeMaybeEmitDone v cur self sub =
      ⟨(v.callResume cur self sub).trace ++
          (if returnedTrue (v.callResume cur self sub) = true then
            [.done self.ident self._state]
           else []),
        (v.callResume cur self sub).result⟩ := by
  rw [← maybeEmitDone_eq]
  rfl

/-- C1 fails at this input: a Thinker constructed on the coordinating thread 1, whose
`start()` and `resume()` return true at once. The `done` event of each wrapper is emitted
while the state is still `ThinkerOwnedByRunner`, the value the constructor gave it. -/
theorem done_emitted_before_finished_counterexample :
    ThinkerBase.construct 1 7 ⟨1, []⟩ = ⟨[], .ok ⟨7, 1, .ThinkerOwnedByRunner, ⟨1, []⟩⟩⟩ ∧
    ThinkerBase.startMaybeEmitDone
        (⟨fun _ _ s => pure (true, s), some (fun _ _ s => pure (true, s)), none, none⟩ :
          ThinkerType Unit)
        1 ⟨7, 1, .ThinkerOwnedByRunner, ⟨1, []⟩⟩ () =
      ⟨[.done 7 .ThinkerOwnedByRunner], .ok (true, ())⟩ ∧
    ThinkerBase.resumeMaybeEmitDone
        (⟨fun _ _ s => pure (true, s), some (fun _ _ s => pure (true, s)), none, none⟩ :
          ThinkerType Unit)
        1 ⟨7, 1, .ThinkerOwnedByRunner, ⟨1, []⟩⟩ () =
      ⟨[.done 7 .ThinkerOwnedByRunner], .ok (true, ())⟩ ∧
    State.ThinkerOwnedByRunner ≠ State.ThinkerFinished := by
  refine ⟨rfl, rfl, rfl, ?_⟩
  decide

/-- C1 (amended): when `start()` returns true, `startMaybeEmitDone` emits `done` as its last
action while the Thinker's state is the one it had when the wrapper was called; separately,
when `resume()` returns true, `resumeMaybeEmitDone` does the same. The wrappers commit no
transition before emitting, so at the moment of the emission the state is
`ThinkerFinished` if and only if it already was when the wrapper was called. -/
theorem done_emitted_in_entry_state {σ : Type} (v : ThinkerType σ) (cur : ThreadId)
    (self : ThinkerBase) (sub : σ) :
    (∀ (tr : List Event) (s : σ), v.start cur self sub = ⟨tr, .ok (true, s)⟩ →
      ThinkerBase.startMaybeEmitDone v cur self sub =
        ⟨tr ++ [.done self.ident self._state], .ok (true, s)⟩ ∧
      ((ThinkerBase.startMaybeEmitDone v cur self sub).trace.getLast? =
          some (.done self.ident .ThinkerFinished) ↔ self._state = .ThinkerFinished)) ∧
    (∀ (tr : List Event) (s : σ), v.callResume cur self sub = ⟨tr, .ok (true, s)⟩ →
      ThinkerBase.resumeMaybeEmitDone v cur self sub =
        ⟨tr ++ [.done self.ident self._state], .ok (true, s)⟩ ∧
      ((ThinkerBase.resumeMaybeEmitDone v cur self sub).trace.getLast? =
          some (.done self.ident .ThinkerFinished) ↔ self._state = .ThinkerFinished)) := by
  refine ⟨?_, ?_⟩
  · intro tr s hstart
    have e : ThinkerBase.startMaybeEmitDone v cur self sub =
        ⟨tr ++ [.done self.ident self._state], .ok (true, s)⟩ := by
      rw [startMaybeEmitDone_eq, hstart]; simp [returnedTrue]
    refine ⟨e, ?_⟩
    rw [e]; simp
  · intro tr s hresume
    have e : ThinkerBase.resumeMaybeEmitDone v cur self sub =
        ⟨tr ++ [.done self.ident self._state], .ok (true, s)⟩ := by
      rw [resumeMaybeEmitDone_eq, hresume]; simp [returnedTrue]
    refine ⟨e, ?_⟩
    rw [e]; simp

theorem done_emitted_in_entry_state_witness :
    ThinkerBase.startMaybeEmitDone
        (⟨fun _ _ s => ⟨[.other 0], .ok (true, s + 1)⟩, none, none, none⟩ : ThinkerType Nat)
        2 ⟨7, 2, .ThinkerOwnedByRunner, ⟨1, []⟩⟩ 0 =
      ⟨[.other 0] ++ [.done 7 .ThinkerOwnedByRunner], .ok (true, 1)⟩ ∧
    ThinkerBase.resumeMaybeEmitDone
        (⟨fun _ _ s => ⟨[], .ok (false, s)⟩,
          some (fun _ _ s => ⟨[.other 1], .ok (true, s + 2)⟩), none, none⟩ : ThinkerType Nat)
        2 ⟨7, 2, .ThinkerCanceled, ⟨1, []⟩⟩ 0 =
      ⟨[.other 1] ++ [.done 7 .ThinkerCanceled], .ok (true, 2)⟩ :=
  ⟨((done_emitted_in_entry_state
      (⟨fun _ _ s => ⟨[.other 0], .ok (true, s + 1)⟩, none, none, none⟩ : ThinkerType Nat)
      2 ⟨7, 2, .ThinkerOwnedByRunner, ⟨1, []⟩⟩ 0).1 [.other 0] 1 rfl).1,
   ((done_emitted_in_entry_state
      (⟨fun _ _ s => ⟨[], .ok (false, s)⟩,
        some (fun _ _ s => ⟨[.other 1], .ok (true, s + 2)⟩), none, none⟩ : ThinkerType Nat)
      2 ⟨7, 2, .ThinkerCanceled, ⟨1, []⟩⟩ 0).2 [.other 1] 2 rfl).1⟩

/-- C2: `startMaybeEmitDone` ends exactly as `start()` ended, so it returns the boolean
`start()` returned, and to what `start()` did it adds one `done` emission when that boolean
is true and nothing when it is false (or when `start()` did not return); the same holds for
`resumeMaybeEmitDone` with respect to `resume()`. -/
theorem maybeEmitDone_returns_result_and_emits_once {σ : Type} (v : ThinkerType σ)
    (cur : ThreadId) (self : ThinkerBase) (sub : σ) :
    (ThinkerBase.startMaybeEmitDone v cur self sub).result = (v.start cur self sub).result ∧
    (ThinkerBase.startMaybeEmitDone v cur self sub).trace =
      (v.start cur self sub).trace ++
        (if returnedTrue (v.start cur self sub) = true then [.done self.ident self._state]
         else []) ∧
    doneCount (ThinkerBase.startMaybeEmitDone v cur self sub).trace =
      doneCount (v.start cur self sub).trace +
        (if returnedTrue (v.start cur self sub) = true then 1 else 0) ∧
    (ThinkerBase.resumeMaybeEmitDone v cur self sub).result =
      (v.callResume cur self sub).result ∧
    (ThinkerBase.resumeMaybeEmitDone v cur self sub).trace =
      (v.callResume cur self sub).trace ++
        (if returnedTrue (v.callResume cur self sub) = true then
          [.done self.ident self._state]
         else []) ∧
    doneCount (ThinkerBase.resumeMaybeEmitDone v cur self sub).trace =
      doneCount (v.callResume cur self sub).trace +
        (if returnedTrue (v.callResume cur self sub) = true then 1 else 0) := by
  rw [startMaybeEmitDone_eq, resumeMaybeEmitDone_eq]
  refine ⟨rfl, rfl, ?_, rfl, rfl, ?_⟩
  · rw [doneCount_append]
    by_cases h : returnedTrue (v.start cur self sub) = true <;> simp [h, doneCount]
  · rw [doneCount_append]
    by_cases h : returnedTrue (v.callResume cur self sub) = true <;> simp [h, doneCount]

/-- C8: for a Thinker class that does not override `resume()`, a call of `resume()` fails
the fatal assertion "Thinker not designed to be resumable." (thinkerbase.h line 164);
`resumeMaybeEmitDone` fails in the same way: it emits no `done` and does not return
true. -/
theorem resume_not_overridden_is_fatal {σ : Type} (v : ThinkerType σ) (cur : ThreadId)
    (self : ThinkerBase) (sub : σ) (h : v.resume = none) :
    v.callResume cur self sub =
      ⟨[], .error (.notReached "Thinker not designed to be resumable."
        (HERE .thinkerbase_h 164))⟩ ∧
    ThinkerBase.resumeMaybeEmitDone v cur self sub =
      ⟨[], .error (.notReached "Thinker not designed to be resumable."
        (HERE .thinkerbase_h 164))⟩ ∧
    doneCount (ThinkerBase.resumeMaybeEmitDone v cur self sub).trace = 0 ∧
    returnedTrue (ThinkerBase.resumeMaybeEmitDone v cur self sub) = false := by
  have e : v.callResume cur self sub =
      ⟨[], .error (.notReached "Thinker not designed to be resumable."
        (HERE .thinkerbase_h 164))⟩ := by
    unfold ThinkerType.callResume
    rw [h]
    rfl
  have e2 : ThinkerBase.resumeMaybeEmitDone v cur self sub =
      ⟨[], .error (.notReached "Thinker not designed to be resumable."
        (HERE .thinkerbase_h 164))⟩ := by
    rw [resumeMaybeEmitDone_eq, e]; simp [returnedTrue]
  refine ⟨e, e2, ?_, ?_⟩
  · rw [e2]; rfl
  · rw [e2]; rfl

theorem resume_not_overridden_is_fatal_witness :
    doneCount (ThinkerBase.resumeMaybeEmitDone
        (⟨fun _ _ s => pure (true, s), none, none, none⟩ : ThinkerType Unit)
        2 ⟨7, 2, .ThinkerOwnedByRunner, ⟨1, []⟩⟩ ()).trace = 0 ∧
    returnedTrue (ThinkerBase.resumeMaybeEmitDone
        (⟨fun _ _ s => pure (true, s), none, none, none⟩ : ThinkerType Unit)
        2 ⟨7, 2, .ThinkerOwnedByRunner, ⟨1, []⟩⟩ ()) = false :=
  (resume_not_overridden_is_fatal
    (⟨fun _ _ s => pure (true, s), none, none, none⟩ : ThinkerType Unit)
    2 ⟨7, 2, .ThinkerOwnedByRunner, ⟨1, []⟩⟩ () rfl).2.2

end ThinkerQt
